import Mathlib

set_option maxRecDepth 100000

/-!
Verification of the rule-based chat dispatcher of the certification
consulting backend. Python strings are modelled as lists of characters
(a Python string is a sequence of code points). The dispatcher `chat`
is translated from the `chat` handler in `main.py`: it normalizes the
message by stripping surrounding whitespace and lowercasing, rejects an
empty result with a 400 error, and otherwise walks the branch chain
greeting, topic table, timeline, cost, default.
-/

deriving instance DecidableEq for Except

/-- Boolean test that the first list is a prefix of the second, used to
implement substring containment. -/
def isPrefixB : List Char → List Char → Bool
  | [], _ => true
  | _ :: _, [] => false
  | a :: as, b :: bs => a == b && isPrefixB as bs

/-- Substring containment, modelling the Python expression needle in
haystack: true when the needle occurs contiguously in the haystack (the
empty needle is contained in every string). -/
def inStr (needle : List Char) : List Char → Bool
  | [] => needle.isEmpty
  | c :: rest => isPrefixB needle (c :: rest) || inStr needle rest

/-- Model of Python str.strip with no argument: remove leading and
trailing whitespace characters. -/
def pyStrip (l : List Char) : List Char :=
  ((l.dropWhile Char.isWhitespace).reverse.dropWhile Char.isWhitespace).reverse

/-- Model of Python str.lower: lowercase every character. -/
def pyLower (l : List Char) : List Char :=
  l.map Char.toLower

/-- Normalization done at the top of the chat handler in main.py: strip
surrounding whitespace, then lowercase. -/
def normalizeMsg (message : List Char) : List Char :=
  pyLower (pyStrip message)

/-- Error raised by the handler, modelling fastapi HTTPException with a
status code and a detail string. -/
structure HttpError where
  statusCode : Nat
  detail : List Char
deriving DecidableEq, Repr

/-- Model of the ChatMessage pydantic model in main.py. -/
structure ChatMessage where
  role : List Char
  content : List Char
deriving DecidableEq, Repr

/-- Model of the ChatRequest pydantic model in main.py: a required
message and an optional history list. -/
structure ChatRequest where
  message : List Char
  history : Option (List ChatMessage) := none
deriving DecidableEq, Repr

/-- Model of the ChatResponse pydantic model in main.py. -/
structure ChatResponse where
  reply : List Char
  suggested_follow_ups : List (List Char) := []
deriving DecidableEq, Repr

/-- One entry of the static topic table CERT_TOPICS in main.py. -/
structure TopicInfo where
  key : List Char
  title : List Char
  overview : List Char
  steps : List (List Char)
  timeline : List Char
  benefits : List (List Char)
deriving DecidableEq, Repr

/-- The iso 9001 entry of CERT_TOPICS in main.py. -/
def ISO9001 : TopicInfo where
  key := "iso 9001".data
  title := "ISO 9001 (Quality Management)".data
  overview := "Framework for consistent quality, customer satisfaction, and continual improvement.".data
  steps := [
    "Gap analysis against ISO 9001:2015 requirements".data,
    "Define scope and process mapping".data,
    "Build QMS documentation and controls".data,
    "Train teams and run internal audits".data,
    "Management review and certification audit support".data]
  timeline := "8–16 weeks for most SMEs".data
  benefits := ["Reduced defects".data, "Higher customer trust".data, "Operational consistency".data]

/-- The iso 27001 entry of CERT_TOPICS in main.py. -/
def ISO27001 : TopicInfo where
  key := "iso 27001".data
  title := "ISO/IEC 27001 (Information Security)".data
  overview := "ISMS to manage risk, controls (Annex A), and continuous improvement.".data
  steps := [
    "Risk assessment and Statement of Applicability".data,
    "Policies, procedures, and control implementation".data,
    "Security awareness and incident response".data,
    "Internal audit and readiness assessment".data,
    "Stage 1 & 2 certification audit support".data]
  timeline := "10–20 weeks depending on scope".data
  benefits := ["Reduced security risk".data, "Stakeholder assurance".data, "Compliance readiness".data]

/-- The iso 14001 entry of CERT_TOPICS in main.py. -/
def ISO14001 : TopicInfo where
  key := "iso 14001".data
  title := "ISO 14001 (Environmental Management)".data
  overview := "EMS to manage environmental responsibilities systematically.".data
  steps := [
    "Identify aspects and impacts".data,
    "Set objectives and operational controls".data,
    "Training and awareness".data,
    "Internal audit and management review".data,
    "Certification audit support".data]
  timeline := "8–14 weeks".data
  benefits := ["Reduced environmental impact".data, "Regulatory compliance".data, "Cost savings".data]

/-- The static topic table CERT_TOPICS of main.py, in its definition
order (Python dicts iterate in insertion order). -/
def CERT_TOPICS : List TopicInfo := [ISO9001, ISO27001, ISO14001]

/-- The GENERIC_SUGGESTIONS list of main.py. -/
def GENERIC_SUGGESTIONS : List (List Char) := [
  "What standards are most relevant for our industry?".data,
  "Can you provide a sample project plan?".data,
  "What documentation do we need to prepare?".data]

/-- The greeting keywords checked first by the chat handler. -/
def GREETINGS : List (List Char) := ["hello".data, "hi".data, "hey".data]

/-- The fixed greeting reply of the chat handler. -/
def GREETING_REPLY : List Char :=
  ("Hi! I’m your certification assistant. I can help with ISO 9001, ISO 27001, ISO 14001 and more. " ++
   "Tell me your goals, industry, and timeframe, and I’ll recommend a path to certification.").data

/-- The fixed follow-up list returned with every topic reply. -/
def TOPIC_SUGGESTIONS : List (List Char) := [
  "Can you estimate effort for our team size?".data,
  "What evidence do auditors expect?".data,
  "Can we combine multiple standards into an integrated management system?".data]

/-- The fixed timeline-guidance reply of the chat handler. -/
def TIMELINE_REPLY : List Char :=
  ("Timelines vary by scope and readiness. Most clients complete core work in 8–20 weeks. " ++
   "Share your headcount, sites, and current policies for a tailored plan.").data

/-- The single follow-up returned with the timeline reply. -/
def TIMELINE_FOLLOWUP : List Char :=
  "We have 2 sites and 80 staff—what’s a realistic plan?".data

/-- The fixed cost-guidance reply of the chat handler. -/
def COST_REPLY : List Char :=
  ("Consulting effort depends on scope and existing maturity. We typically work on fixed-fee phases " ++
   "aligned to milestones. Share your standards of interest and timeline and we’ll propose options.").data

/-- The single follow-up returned with the cost reply. -/
def COST_FOLLOWUP : List Char :=
  "We’re targeting ISO 27001 in Q2—please outline a proposal.".data

/-- The fixed default reply of the chat handler. -/
def DEFAULT_REPLY : List Char :=
  ("I can help map the right certification path for you. Which standards are you considering (e.g., ISO 9001, ISO 27001)? " ++
   "Tell me your industry and timeframe for a tailored plan.").data

/-- The reply string built inside the topic loop of the chat handler,
translated from the f-string concatenation in main.py. -/
def buildTopicReply (info : TopicInfo) : List Char :=
  info.title ++ "\n\n".data ++
  "Overview: ".data ++ info.overview ++ "\n\n".data ++
  "Typical steps:\n- ".data ++ List.intercalate "\n- ".data info.steps ++ "\n\n".data ++
  "Typical timeline: ".data ++ info.timeline ++ "\n".data ++
  "Benefits: ".data ++ List.intercalate ", ".data info.benefits

/-- Reply layout as the specification words it: title, blank line, an
Overview line, blank line, a Typical steps heading with every step on
its own line prefixed by a dash, blank line, a Typical timeline line,
and a Benefits line joining the benefits with commas. Stated from the
spec sentence to compare against buildTopicReply. -/
def specTopicReply (info : TopicInfo) : List Char :=
  info.title ++ "\n\n".data ++
  ("Overview: ".data ++ info.overview) ++ "\n\n".data ++
  ("Typical steps:".data ++ "\n".data ++
    List.intercalate "\n".data (info.steps.map (fun s => "- ".data ++ s))) ++ "\n\n".data ++
  ("Typical timeline: ".data ++ info.timeline) ++ "\n".data ++
  ("Benefits: ".data ++ List.intercalate ", ".data info.benefits)

/-- The chat dispatcher, translated from the chat handler in main.py:
normalize the message, reject an empty result with a 400 error, then
check greeting keywords, the topic table in order, timeline keywords,
cost keywords, and finally return the default reply. -/
def dispatch (message : List Char) : Except HttpError ChatResponse :=
  let text := normalizeMsg message
  if text = [] then
    .error ⟨400, "Message is required".data⟩
  else if GREETINGS.any (fun k => inStr k text) then
    .ok ⟨GREETING_REPLY, GENERIC_SUGGESTIONS⟩
  else
    match CERT_TOPICS.find? (fun info => inStr info.key text) with
    | some info => .ok ⟨buildTopicReply info, TOPIC_SUGGESTIONS⟩
    | none =>
      if inStr "timeline".data text || inStr "how long".data text then
        .ok ⟨TIMELINE_REPLY, [TIMELINE_FOLLOWUP]⟩
      else if inStr "cost".data text || inStr "price".data text || inStr "budget".data text then
        .ok ⟨COST_REPLY, [COST_FOLLOWUP]⟩
      else
        .ok ⟨DEFAULT_REPLY, GENERIC_SUGGESTIONS⟩

/-- The chat endpoint: the handler reads only the message field of the
request; the history field is never consulted. -/
def chat (req : ChatRequest) : Except HttpError ChatResponse :=
  dispatch req.message

/-- Normalization returns the empty string exactly when stripping the
message already does: lowercasing preserves emptiness. -/
theorem normalizeMsg_eq_nil_iff (m : List Char) : normalizeMsg m = [] ↔ pyStrip m = [] := by
  simp [normalizeMsg, pyLower]

/-- A string containing a non-empty substring is itself non-empty. -/
theorem text_ne_nil_of_inStr {k text : List Char} (h : inStr k text = true) (hk : k ≠ []) :
    text ≠ [] := by
  intro he
  subst he
  cases k with
  | nil => exact hk rfl
  | cons a as => simp [inStr] at h

/-- Dispatch on a message that normalizes to a non-empty string never
raises: every branch after the emptiness check returns a response. -/
theorem dispatch_total (m : List Char) :
    (normalizeMsg m = [] ∧ dispatch m = .error ⟨400, "Message is required".data⟩) ∨
    (normalizeMsg m ≠ [] ∧ ∃ resp, dispatch m = .ok resp) := by
  by_cases hne : normalizeMsg m = []
  · exact Or.inl ⟨hne, by simp [dispatch, hne]⟩
  · refine Or.inr ⟨hne, ?_⟩
    by_cases hgb : GREETINGS.any (fun k => inStr k (normalizeMsg m)) = true
    · exact ⟨_, by simp only [dispatch]; rw [if_neg hne, if_pos hgb]⟩
    · cases hfind : CERT_TOPICS.find? (fun info => inStr info.key (normalizeMsg m)) with
      | some info =>
          exact ⟨_, by simp only [dispatch]; rw [if_neg hne, if_neg hgb]; simp only [hfind]; rfl⟩
      | none =>
          by_cases h1 : (inStr "timeline".data (normalizeMsg m) ||
              inStr "how long".data (normalizeMsg m)) = true
          · exact ⟨_, by
              simp only [dispatch]; rw [if_neg hne, if_neg hgb]; simp only [hfind]
              rw [if_pos h1]⟩
          · by_cases h2 : (inStr "cost".data (normalizeMsg m) ||
                inStr "price".data (normalizeMsg m) ||
                inStr "budget".data (normalizeMsg m)) = true
            · exact ⟨_, by
                simp only [dispatch]; rw [if_neg hne, if_neg hgb]; simp only [hfind]
                rw [if_neg h1, if_pos h2]⟩
            · exact ⟨_, by
                simp only [dispatch]; rw [if_neg hne, if_neg hgb]; simp only [hfind]
                rw [if_neg h1, if_neg h2]⟩

/-- C1: the chat dispatch fails with the InvalidInput client error, a
400 status with a descriptive message, exactly when the request message
is empty or whitespace-only after trimming; every message that trims to
a non-empty string yields a ChatResponse without error. -/
theorem chat_invalid_input_iff (req : ChatRequest) :
    (chat req = .error ⟨400, "Message is required".data⟩ ↔ pyStrip req.message = []) ∧
    (pyStrip req.message ≠ [] → ∃ resp, chat req = .ok resp) := by
  rcases dispatch_total req.message with ⟨hz, herr⟩ | ⟨hz, resp, hok⟩
  · have hs : pyStrip req.message = [] := (normalizeMsg_eq_nil_iff req.message).mp hz
    refine ⟨⟨fun _ => hs, fun _ => herr⟩, fun hne => absurd hs hne⟩
  · have hs : pyStrip req.message ≠ [] := fun h =>
      hz ((normalizeMsg_eq_nil_iff req.message).mpr h)
    refine ⟨⟨fun h => ?_, fun h => absurd h hs⟩, fun _ => ⟨resp, hok⟩⟩
    have : chat req = .ok resp := hok
    rw [this] at h
    exact Except.noConfusion h

/-- Concrete witness for C1: the message hi trims to a non-empty string
and dispatch returns a response for it. -/
theorem chat_invalid_input_iff_witness :
    pyStrip "hi".data ≠ [] ∧ ∃ resp, chat ⟨"hi".data, none⟩ = .ok resp :=
  ⟨by decide, (chat_invalid_input_iff ⟨"hi".data, none⟩).2 (by decide)⟩

/-- C3: a message that trims to a non-empty string and whose normalized
form contains hello, hi or hey gets the fixed greeting reply with the
generic three-item follow-up list, before any other branch is tried. -/
theorem chat_greeting_priority (req : ChatRequest)
    (hne : pyStrip req.message ≠ [])
    (h : inStr "hello".data (normalizeMsg req.message) = true ∨
         inStr "hi".data (normalizeMsg req.message) = true ∨
         inStr "hey".data (normalizeMsg req.message) = true) :
    chat req = .ok ⟨GREETING_REPLY, GENERIC_SUGGESTIONS⟩ ∧
    GENERIC_SUGGESTIONS.length = 3 := by
  have htext : normalizeMsg req.message ≠ [] := fun he =>
    hne ((normalizeMsg_eq_nil_iff req.message).mp he)
  have hany : GREETINGS.any (fun k => inStr k (normalizeMsg req.message)) = true := by
    rcases h with h | h | h <;> simp [GREETINGS, h]
  refine ⟨?_, by decide⟩
  simp only [chat, dispatch]
  rw [if_neg htext, if_pos hany]

/-- Concrete witness for C3: the message hello there matches the
greeting branch. -/
theorem chat_greeting_priority_witness :
    pyStrip "hello there".data ≠ [] ∧
    inStr "hello".data (normalizeMsg "hello there".data) = true ∧
    chat ⟨"hello there".data, none⟩ = .ok ⟨GREETING_REPLY, GENERIC_SUGGESTIONS⟩ :=
  ⟨by decide, by decide,
    (chat_greeting_priority ⟨"hello there".data, none⟩ (by decide)
      (Or.inl (by decide))).1⟩

/-- C8: dispatch is a pure function of the request: two requests with
the same message and history fields produce the same result, so a
repeated call is byte-identical and no hidden state is involved. -/
theorem chat_deterministic (r1 r2 : ChatRequest)
    (hm : r1.message = r2.message) (_hh : r1.history = r2.history) :
    chat r1 = chat r2 := by
  simp only [chat, hm]

/-- Concrete witness for C8: two identical requests get equal replies. -/
theorem chat_deterministic_witness :
    chat ⟨"iso 9001".data, none⟩ = chat ⟨"iso 9001".data, none⟩ :=
  chat_deterministic ⟨"iso 9001".data, none⟩ ⟨"iso 9001".data, none⟩ rfl rfl

/-- C9: the history field of the request never influences the response:
for one message and any two history values the results coincide. -/
theorem chat_ignores_history (m : List Char) (h1 h2 : Option (List ChatMessage)) :
    chat ⟨m, h1⟩ = chat ⟨m, h2⟩ := rfl

/-- Dispatch enters the topic branch when the text is non-empty, no
greeting keyword occurs, and the ordered topic lookup finds an entry. -/
theorem dispatch_topic {m : List Char} {info : TopicInfo}
    (hne : normalizeMsg m ≠ [])
    (hg : GREETINGS.any (fun k => inStr k (normalizeMsg m)) = false)
    (hfind : CERT_TOPICS.find? (fun t => inStr t.key (normalizeMsg m)) = some info) :
    dispatch m = .ok ⟨buildTopicReply info, TOPIC_SUGGESTIONS⟩ := by
  simp only [dispatch]
  rw [if_neg hne, if_neg (by simp [hg])]
  simp only [hfind]

/-- C10: every successful chat response carries three or one suggested
follow-ups, so the follow-up list at the interface is never empty. -/
theorem chat_follow_ups_nonempty (req : ChatRequest) (resp : ChatResponse)
    (h : chat req = .ok resp) :
    (resp.suggested_follow_ups.length = 3 ∨ resp.suggested_follow_ups.length = 1) ∧
    resp.suggested_follow_ups ≠ [] := by
  simp only [chat, dispatch] at h
  split at h
  · exact Except.noConfusion h
  · split at h
    · injection h with h2; subst h2; simp [GENERIC_SUGGESTIONS]
    · split at h
      · injection h with h2; subst h2; simp [TOPIC_SUGGESTIONS]
      · split at h
        · injection h with h2; subst h2; simp
        · split at h
          · injection h with h2; subst h2; simp
          · injection h with h2; subst h2; simp [GENERIC_SUGGESTIONS]

/-- Concrete witness for C10: the greeting response to hey has three
follow-ups and a non-empty follow-up list. -/
theorem chat_follow_ups_nonempty_witness :
    ((⟨GREETING_REPLY, GENERIC_SUGGESTIONS⟩ : ChatResponse).suggested_follow_ups.length = 3 ∨
     (⟨GREETING_REPLY, GENERIC_SUGGESTIONS⟩ : ChatResponse).suggested_follow_ups.length = 1) ∧
    (⟨GREETING_REPLY, GENERIC_SUGGESTIONS⟩ : ChatResponse).suggested_follow_ups ≠ [] :=
  chat_follow_ups_nonempty ⟨"hey".data, none⟩ ⟨GREETING_REPLY, GENERIC_SUGGESTIONS⟩ (by decide)

/-- Counterexample to C2 as stated: the message hi iso 9001 contains
iso 9001, yet the greeting check fires first, so the reply is the
greeting reply, which does not contain ISO 9001 (Quality Management). -/
theorem chat_iso9001_greeting_cex :
    inStr "iso 9001".data (normalizeMsg "hi iso 9001".data) = true ∧
    chat ⟨"hi iso 9001".data, none⟩ = .ok ⟨GREETING_REPLY, GENERIC_SUGGESTIONS⟩ ∧
    inStr "ISO 9001 (Quality Management)".data GREETING_REPLY = false := by
  refine ⟨by decide, by decide, by decide⟩

/-- C2 amended: a message whose normalized form contains iso 9001 and
no greeting keyword always gets the iso 9001 topic reply, which
contains ISO 9001 (Quality Management), whatever other keywords occur. -/
theorem chat_iso9001_no_greeting (req : ChatRequest)
    (h : inStr "iso 9001".data (normalizeMsg req.message) = true)
    (hg : GREETINGS.any (fun k => inStr k (normalizeMsg req.message)) = false) :
    chat req = .ok ⟨buildTopicReply ISO9001, TOPIC_SUGGESTIONS⟩ ∧
    inStr "ISO 9001 (Quality Management)".data (buildTopicReply ISO9001) = true := by
  have hne : normalizeMsg req.message ≠ [] := text_ne_nil_of_inStr h (by decide)
  refine ⟨?_, by decide⟩
  have hfind : CERT_TOPICS.find? (fun t => inStr t.key (normalizeMsg req.message)) =
      some ISO9001 := by
    simp only [CERT_TOPICS]
    exact List.find?_cons_of_pos _ h
  exact dispatch_topic hne hg hfind

/-- Concrete witness for the amended C2: the message please iso 9001
about timeline and cost has keyword overlaps but no greeting, and still
gets the iso 9001 reply. -/
theorem chat_iso9001_no_greeting_witness :
    inStr "iso 9001".data (normalizeMsg "please iso 9001 timeline and cost".data) = true ∧
    GREETINGS.any (fun k => inStr k (normalizeMsg "please iso 9001 timeline and cost".data)) = false ∧
    chat ⟨"please iso 9001 timeline and cost".data, none⟩ =
      .ok ⟨buildTopicReply ISO9001, TOPIC_SUGGESTIONS⟩ :=
  ⟨by decide, by decide,
    (chat_iso9001_no_greeting ⟨"please iso 9001 timeline and cost".data, none⟩
      (by decide) (by decide)).1⟩

/-- C5: the message Tell me about iso 27001 timelines matches the iso
27001 topic branch even though it also contains timeline, and the reply
starts with ISO/IEC 27001 (Information Security). -/
theorem chat_iso27001_timelines_example :
    chat ⟨"Tell me about iso 27001 timelines".data, none⟩ =
      .ok ⟨buildTopicReply ISO27001, TOPIC_SUGGESTIONS⟩ ∧
    isPrefixB "ISO/IEC 27001 (Information Security)".data (buildTopicReply ISO27001) = true ∧
    inStr "timeline".data (normalizeMsg "Tell me about iso 27001 timelines".data) = true := by
  refine ⟨by decide, by decide, by decide⟩

/-- C4: the topic table keys are, in order, iso 9001, iso 27001, iso
14001, and with no greeting keyword present dispatch replies for the
earliest key of that fixed order occurring in the message, whichever
later keys also occur. -/
theorem chat_topic_table_order (req : ChatRequest) :
    CERT_TOPICS.map TopicInfo.key =
      ["iso 9001".data, "iso 27001".data, "iso 14001".data] ∧
    (GREETINGS.any (fun k => inStr k (normalizeMsg req.message)) = false →
      (inStr "iso 9001".data (normalizeMsg req.message) = true →
        chat req = .ok ⟨buildTopicReply ISO9001, TOPIC_SUGGESTIONS⟩) ∧
      (inStr "iso 9001".data (normalizeMsg req.message) = false →
        inStr "iso 27001".data (normalizeMsg req.message) = true →
        chat req = .ok ⟨buildTopicReply ISO27001, TOPIC_SUGGESTIONS⟩) ∧
      (inStr "iso 9001".data (normalizeMsg req.message) = false →
        inStr "iso 27001".data (normalizeMsg req.message) = false →
        inStr "iso 14001".data (normalizeMsg req.message) = true →
        chat req = .ok ⟨buildTopicReply ISO14001, TOPIC_SUGGESTIONS⟩)) := by
  refine ⟨by decide, fun hg => ⟨fun h1 => ?_, fun h1 h2 => ?_, fun h1 h2 h3 => ?_⟩⟩
  · exact dispatch_topic (text_ne_nil_of_inStr h1 (by decide)) hg
      (by simp only [CERT_TOPICS]; exact List.find?_cons_of_pos _ h1)
  · refine dispatch_topic (text_ne_nil_of_inStr h2 (by decide)) hg ?_
    simp only [CERT_TOPICS]
    rw [List.find?_cons_of_neg _ (by simp [ISO9001, h1])]
    exact List.find?_cons_of_pos _ h2
  · refine dispatch_topic (text_ne_nil_of_inStr h3 (by decide)) hg ?_
    simp only [CERT_TOPICS]
    rw [List.find?_cons_of_neg _ (by simp [ISO9001, h1]),
        List.find?_cons_of_neg _ (by simp [ISO27001, h2])]
    exact List.find?_cons_of_pos _ h3

/-- Concrete witness for C4: a message containing both the iso 27001
and the iso 14001 keys gets the iso 27001 reply, the earlier key in
table order. -/
theorem chat_topic_table_order_witness :
    GREETINGS.any (fun k => inStr k (normalizeMsg "iso 27001 and iso 14001".data)) = false ∧
    inStr "iso 9001".data (normalizeMsg "iso 27001 and iso 14001".data) = false ∧
    inStr "iso 27001".data (normalizeMsg "iso 27001 and iso 14001".data) = true ∧
    inStr "iso 14001".data (normalizeMsg "iso 27001 and iso 14001".data) = true ∧
    chat ⟨"iso 27001 and iso 14001".data, none⟩ =
      .ok ⟨buildTopicReply ISO27001, TOPIC_SUGGESTIONS⟩ :=
  ⟨by decide, by decide, by decide, by decide,
    ((chat_topic_table_order ⟨"iso 27001 and iso 14001".data, none⟩).2
      (by decide)).2.1 (by decide) (by decide)⟩

/-- Source reply builder and spec reply layout agree on every entry of
the topic table. -/
theorem buildTopicReply_eq_spec {info : TopicInfo} (hmem : info ∈ CERT_TOPICS) :
    buildTopicReply info = specTopicReply info := by
  simp only [CERT_TOPICS, List.mem_cons, List.not_mem_nil, or_false] at hmem
  rcases hmem with rfl | rfl | rfl <;> decide

/-- C6: a topic-matching message with no greeting gets exactly the
concatenated reply the spec describes, title through Benefits line,
together with the fixed three-item topic follow-up list. -/
theorem chat_topic_reply_format (req : ChatRequest) (info : TopicInfo)
    (hg : GREETINGS.any (fun k => inStr k (normalizeMsg req.message)) = false)
    (hfind : CERT_TOPICS.find? (fun t => inStr t.key (normalizeMsg req.message)) = some info) :
    chat req = .ok ⟨specTopicReply info, TOPIC_SUGGESTIONS⟩ ∧
    TOPIC_SUGGESTIONS.length = 3 := by
  have hmem : info ∈ CERT_TOPICS := List.mem_of_find?_eq_some hfind
  have hkey : inStr info.key (normalizeMsg req.message) = true := by
    have h := List.find?_some hfind
    simpa using h
  have hk : info.key ≠ [] := by
    simp only [CERT_TOPICS, List.mem_cons, List.not_mem_nil, or_false] at hmem
    rcases hmem with rfl | rfl | rfl <;> decide
  have hne := text_ne_nil_of_inStr hkey hk
  refine ⟨?_, by decide⟩
  rw [show chat req = dispatch req.message from rfl, dispatch_topic hne hg hfind,
      buildTopicReply_eq_spec hmem]

/-- Concrete witness for C6: the message iso 14001 scope gets the spec
layout reply for the iso 14001 entry. -/
theorem chat_topic_reply_format_witness :
    GREETINGS.any (fun k => inStr k (normalizeMsg "iso 14001 scope".data)) = false ∧
    CERT_TOPICS.find? (fun t => inStr t.key (normalizeMsg "iso 14001 scope".data)) =
      some ISO14001 ∧
    chat ⟨"iso 14001 scope".data, none⟩ = .ok ⟨specTopicReply ISO14001, TOPIC_SUGGESTIONS⟩ :=
  ⟨by decide, by decide,
    (chat_topic_reply_format ⟨"iso 14001 scope".data, none⟩ ISO14001
      (by decide) (by decide)).1⟩

/-- C7: with no greeting, topic or timeline match, a message containing
cost, price or budget gets the fixed cost-guidance reply with a single
follow-up, and that reply contains fixed-fee phases. -/
theorem chat_cost_branch (req : ChatRequest)
    (hg : GREETINGS.any (fun k => inStr k (normalizeMsg req.message)) = false)
    (ht : CERT_TOPICS.find? (fun t => inStr t.key (normalizeMsg req.message)) = none)
    (htl1 : inStr "timeline".data (normalizeMsg req.message) = false)
    (htl2 : inStr "how long".data (normalizeMsg req.message) = false)
    (hc : inStr "cost".data (normalizeMsg req.message) = true ∨
          inStr "price".data (normalizeMsg req.message) = true ∨
          inStr "budget".data (normalizeMsg req.message) = true) :
    chat req = .ok ⟨COST_REPLY, [COST_FOLLOWUP]⟩ ∧
    ([COST_FOLLOWUP] : List (List Char)).length = 1 ∧
    inStr "fixed-fee phases".data COST_REPLY = true := by
  have hne : normalizeMsg req.message ≠ [] := by
    rcases hc with h | h | h <;> exact text_ne_nil_of_inStr h (by decide)
  have hcb : (inStr "cost".data (normalizeMsg req.message) ||
      inStr "price".data (normalizeMsg req.message) ||
      inStr "budget".data (normalizeMsg req.message)) = true := by
    rcases hc with h | h | h <;> simp [h]
  refine ⟨?_, by decide, by decide⟩
  simp only [chat, dispatch]
  rw [if_neg hne, if_neg (by simp [hg])]
  simp only [ht]
  rw [if_neg (by simp [htl1, htl2]), if_pos hcb]

/-- Concrete witness for C7: the literal example message asking for the
cost reaches the cost branch and its reply mentions fixed-fee phases. -/
theorem chat_cost_branch_witness :
    GREETINGS.any (fun k => inStr k (normalizeMsg "what\x27s the cost?".data)) = false ∧
    CERT_TOPICS.find? (fun t => inStr t.key (normalizeMsg "what\x27s the cost?".data)) = none ∧
    inStr "cost".data (normalizeMsg "what\x27s the cost?".data) = true ∧
    chat ⟨"what\x27s the cost?".data, none⟩ = .ok ⟨COST_REPLY, [COST_FOLLOWUP]⟩ ∧
    inStr "fixed-fee phases".data COST_REPLY = true :=
  ⟨by decide, by decide, by decide,
    (chat_cost_branch ⟨"what\x27s the cost?".data, none⟩ (by decide) (by decide)
      (by decide) (by decide) (Or.inl (by decide))).1,
    (chat_cost_branch ⟨"what\x27s the cost?".data, none⟩ (by decide) (by decide)
      (by decide) (by decide) (Or.inl (by decide))).2.2⟩
